import Mathlib

/-!
Shallow embedding of `src/hotstuff/network/src/receiver.rs` (SafeStakeOperator).

The source is a tokio TCP receiver:
* `Receiver::run` binds a listener (`.expect` panics on bind failure) and
  runs an unbounded accept loop, logging accept errors and continuing.
* `Receiver::spawn_runner` spawns a per-connection task that reads
  length-delimited frames, bincode-decodes each into a `DvfMessage`
  (`validator_id : u64`, `message : Vec<u8>`), looks the validator id up in a
  shared `Arc<RwLock<HashMap<u64, Handler>>>`, and either dispatches to the
  handler, or sends back the literal reply `"No handler found"` (ignoring the
  send result) and continues.  Decode failure, transport read error, and a
  dispatch error each make the task `return`, terminating that connection.

Bytes are modelled as `Nat`, handlers as an abstract type `H`, and the
nondeterministic environment of one loop iteration (the frame produced by
`reader.next()`, the contents of the shared handler map at the moment the
read lock is taken, and whether the reply write would succeed) as an explicit
per-step input.  A run over a finite list of such step inputs produces the
trace of observable events of the connection task.
-/

namespace Receiver

/-- Structure `DvfMessage` (declared in `crate::dvf_message`, outside `src/`):
a validator id together with the message bytes. -/
structure DvfMessage where
  validator_id : Nat
  message : List Nat
  deriving DecidableEq, Repr

/-- Little-endian interpretation of a byte list as an unsigned integer. -/
def leToNat : List Nat → Nat
  | [] => 0
  | b :: bs => b + 256 * leToNat bs

/-- Modelled from the spec: the Envelope Codec (`bincode::deserialize::<DvfMessage>`
together with the `DvfMessage` declaration, which is missing from `src/`).
Per the spec, a frame is `[tenant identifier: fixed-width unsigned integer]
[payload: remaining bytes]`; the tenant identifier is a `u64`, hence an
8-byte prefix, and the payload is the frame bytes minus that prefix.
Decoding fails when the frame has insufficient bytes. -/
def decodeEnvelope (frame : List Nat) : Option DvfMessage :=
  if 8 ≤ frame.length then
    some ⟨leToNat (frame.take 8), frame.drop 8⟩
  else
    none

/-- The routing table contents: the `HashMap<u64, Handler>` inside the
`RwLock`, modelled as an association list with unique keys maintained by
`upsert`/`remove`. -/
def Table (H : Type) : Type := List (Nat × H)

/-- Map lookup, `HashMap::get`: first binding of the key, if any. -/
def lookup {H : Type} (t : Table H) (k : Nat) : Option H :=
  match t with
  | [] => none
  | (k', h) :: rest => if k' = k then some h else lookup rest k

/-- Map insertion, `HashMap::insert`: replace the binding for `k` or add one. -/
def upsert {H : Type} (t : Table H) (k : Nat) (h : H) : Table H :=
  match t with
  | [] => [(k, h)]
  | (k', h') :: rest => if k' = k then (k, h) :: rest else (k', h') :: upsert rest k h

/-- Map removal, `HashMap::remove`: drop every binding for `k`. -/
def remove {H : Type} (t : Table H) (k : Nat) : Table H :=
  t.filter (fun p => p.1 ≠ k)

/-- The bytes of `Bytes::from("No handler found")`. -/
def noHandlerFound : List Nat :=
  "No handler found".toList.map Char.toNat

/-- Observable events of one connection task, in the order they occur. -/
inductive Event (H : Type) where
  /-- The call `handler.dispatch(&mut writer, Bytes::from(msg))` was made. -/
  | dispatched (validatorId : Nat) (handler : H) (payload : List Nat)
  /-- Record `error!("[VA ...] Handler dispatch error ...")`: dispatch returned `Err`. -/
  | dispatchError (validatorId : Nat)
  /-- A frame with the given content was written to the connection's writer. -/
  | sentFrame (content : List Nat)
  /-- Record `error!("[VA ...] Receive a message, but no handler found! ...")`. -/
  | noHandlerLogged (validatorId : Nat)
  /-- Record `warn!("cannot deserialize ...")`: bincode decoding failed. -/
  | decodeFailed
  /-- Record `warn!` of `NetworkError::FailedToReceiveMessage`: transport read error. -/
  | readFailed
  /-- Record `warn!("Connection closed by peer ...")`: the reader stream ended. -/
  | closedByPeer
  deriving DecidableEq, Repr

/-- Whether the `while let` loop continues to the next iteration or the task
`return`s, terminating the connection. -/
inductive Outcome where
  | next
  | terminate
  deriving DecidableEq, Repr

/-- The environment of one iteration of the connection loop:
`frame` is the item yielded by `reader.next()` (`Except.error` for a
transport read error, `Except.ok` for a received frame's bytes); `table` is
the contents of the shared `handler_map` at the instant the read lock is
taken for this iteration; `replyOk` tells whether a `writer.send` of the
"No handler found" reply would succeed on the wire. -/
structure StepInput (H : Type) where
  frame : Except Unit (List Nat)
  table : Table H
  replyOk : Bool

/-- The behaviour of `Handler::dispatch` for this run: `dispatch h payload`
is `true` when the dispatch returns `Ok(())` and `false` when it returns an
error. -/
def DispatchFn (H : Type) : Type := H → List Nat → Bool

/-- One iteration of the `while let Some(frame) = reader.next().await` body:
the events it emits and whether the loop continues. -/
def processFrame {H : Type} (d : DispatchFn H) (inp : StepInput H) :
    List (Event H) × Outcome :=
  match inp.frame with
  | .error _ => ([.readFailed], .terminate)
  | .ok bytes =>
    match decodeEnvelope bytes with
    | none => ([.decodeFailed], .terminate)
    | some m =>
      match lookup inp.table m.validator_id with
      | some h =>
        if d h m.message then
          ([.dispatched m.validator_id h m.message], .next)
        else
          ([.dispatched m.validator_id h m.message, .dispatchError m.validator_id],
            .terminate)
      | none =>
        ((if inp.replyOk then [Event.sentFrame noHandlerFound] else []) ++
          [.noHandlerLogged m.validator_id], .next)

/-- The whole connection task spawned by `spawn_runner`, run against a finite
list of step environments: the reader yields the listed items in order and
then ends.  Produces the connection's event trace. -/
def runConnection {H : Type} (d : DispatchFn H) : List (StepInput H) → List (Event H)
  | [] => [.closedByPeer]
  | inp :: rest =>
    let step := processFrame d inp
    match step.2 with
    | .next => step.1 ++ runConnection d rest
    | .terminate => step.1

/-- The prefix of step environments actually consumed by the loop: everything
up to and including the first terminating step. -/
def processedPrefix {H : Type} (d : DispatchFn H) : List (StepInput H) → List (StepInput H)
  | [] => []
  | inp :: rest =>
    match (processFrame d inp).2 with
    | .next => inp :: processedPrefix d rest
    | .terminate => [inp]

/-- Is this event a dispatch invocation? -/
def isDispatch {H : Type} : Event H → Bool
  | .dispatched _ _ _ => true
  | _ => false

/-- The dispatch invocations of a trace, in order: `(validator id, payload)`. -/
def dispatchSeq {H : Type} : List (Event H) → List (Nat × List Nat)
  | [] => []
  | .dispatched v _ p :: rest => (v, p) :: dispatchSeq rest
  | _ :: rest => dispatchSeq rest

/-- The frames written to the connection by a trace (handler-internal writes
are not modelled; the only modelled write is the unknown-tenant reply). -/
def writesOf {H : Type} : List (Event H) → List (List Nat)
  | [] => []
  | .sentFrame c :: rest => c :: writesOf rest
  | _ :: rest => writesOf rest

end Receiver

namespace Receiver

/-- The unbounded `loop` of `Receiver::run`, run against a finite list of
accept results: on accept failure `warn!` and `continue`; on success
`spawn_runner` for the connection and continue immediately.  Returns the
connections for which runners were spawned, in order. -/
def acceptLoop {σ : Type} : List (Except Unit σ) → List σ
  | [] => []
  | .error _ :: rest => acceptLoop rest
  | .ok s :: rest => s :: acceptLoop rest

/-- Function `Receiver::run`: `none` models the `.expect` panic on bind failure (the
process terminates before any accept); `some conns` models a bound listener
whose accept loop spawned a runner for each successfully accepted connection
in `conns`, in order. -/
def run {σ : Type} (bindOk : Bool) (accepts : List (Except Unit σ)) :
    Option (List σ) :=
  if bindOk then some (acceptLoop accepts) else none

end Receiver

namespace Receiver

/-! ### Helper lemmas -/

theorem decodeEnvelope_message {bytes : List Nat} {m : DvfMessage}
    (h : decodeEnvelope bytes = some m) : m.message = bytes.drop 8 := by
  unfold decodeEnvelope at h
  split at h
  · cases h; rfl
  · exact absurd h (by simp)

theorem lookup_remove_self {H : Type} (t : Table H) (k : Nat) :
    lookup (remove t k) k = none := by
  induction t with
  | nil => rfl
  | cons p rest ih =>
    by_cases hk : p.1 = k
    · simpa [remove, List.filter, hk] using ih
    · simpa [remove, List.filter, hk, lookup] using ih

theorem dispatchSeq_append {H : Type} (a b : List (Event H)) :
    dispatchSeq (a ++ b) = dispatchSeq a ++ dispatchSeq b := by
  induction a with
  | nil => rfl
  | cons e rest ih => cases e <;> simp [dispatchSeq, ih]

end Receiver

namespace Receiver

/-! ### Claim theorems -/

/-- C1: for every received frame whose decoded envelope carries a tenant
identifier present in the routing table, the mapped handler's dispatch is
invoked exactly once for that frame, and the payload passed to dispatch
equals the frame bytes minus the 8-byte tenant-identifier prefix. -/
theorem dispatch_exactly_once {H : Type} (d : DispatchFn H) (inp : StepInput H)
    (bytes : List Nat) (m : DvfMessage) (h : H)
    (hf : inp.frame = .ok bytes)
    (hdec : decodeEnvelope bytes = some m)
    (hlk : lookup inp.table m.validator_id = some h) :
    (processFrame d inp).1.filter isDispatch
      = [.dispatched m.validator_id h (bytes.drop 8)] := by
  have hmsg := decodeEnvelope_message hdec
  by_cases hd : d h m.message = true <;>
    rw [hmsg] at hd <;>
    simp [processFrame, hf, hdec, hlk, hd, isDispatch, hmsg]

theorem dispatch_exactly_once_witness :
    (processFrame (fun (_ : Nat) _ => true)
        ⟨.ok [5, 0, 0, 0, 0, 0, 0, 0, 1, 2, 3], [(5, 9)], true⟩).1.filter isDispatch
      = [.dispatched 5 9 [1, 2, 3]] :=
  dispatch_exactly_once (fun _ _ => true) _ [5, 0, 0, 0, 0, 0, 0, 0, 1, 2, 3]
    ⟨5, [1, 2, 3]⟩ 9 rfl (by decide) (by decide)

/-- C2: for every received frame whose decoded envelope carries a tenant
identifier absent from the routing table (and whose reply write succeeds),
exactly one reply frame with the literal content `No handler found` is
written, no handler is invoked, and the loop continues: the runner keeps
processing subsequent frames. -/
theorem unknown_tenant_reply {H : Type} (d : DispatchFn H) (inp : StepInput H)
    (rest : List (StepInput H)) (bytes : List Nat) (m : DvfMessage)
    (hf : inp.frame = .ok bytes)
    (hdec : decodeEnvelope bytes = some m)
    (hlk : lookup inp.table m.validator_id = none)
    (hr : inp.replyOk = true) :
    writesOf (processFrame d inp).1 = [noHandlerFound] ∧
    (processFrame d inp).1.filter isDispatch = [] ∧
    (processFrame d inp).2 = .next ∧
    runConnection d (inp :: rest) = (processFrame d inp).1 ++ runConnection d rest := by
  have hstep : processFrame d inp
      = ([.sentFrame noHandlerFound, .noHandlerLogged m.validator_id], .next) := by
    simp [processFrame, hf, hdec, hlk, hr]
  refine ⟨?_, ?_, ?_, ?_⟩
  · rw [hstep]; rfl
  · rw [hstep]; rfl
  · rw [hstep]
  · show (match (processFrame d inp).2 with
      | .next => (processFrame d inp).1 ++ runConnection d rest
      | .terminate => (processFrame d inp).1)
      = (processFrame d inp).1 ++ runConnection d rest
    rw [hstep]

theorem unknown_tenant_reply_witness :
    writesOf (processFrame (fun (_ : Nat) _ => true)
        (⟨.ok [7, 0, 0, 0, 0, 0, 0, 0, 4], [(5, 9)], true⟩ : StepInput Nat)).1
      = [noHandlerFound] ∧
    (processFrame (fun (_ : Nat) _ => true)
        (⟨.ok [7, 0, 0, 0, 0, 0, 0, 0, 4], [(5, 9)], true⟩ : StepInput Nat)).1.filter isDispatch = [] ∧
    (processFrame (fun (_ : Nat) _ => true)
        (⟨.ok [7, 0, 0, 0, 0, 0, 0, 0, 4], [(5, 9)], true⟩ : StepInput Nat)).2 = .next ∧
    runConnection (fun (_ : Nat) _ => true)
        (⟨.ok [7, 0, 0, 0, 0, 0, 0, 0, 4], [(5, 9)], true⟩ :: [])
      = (processFrame (fun (_ : Nat) _ => true)
          (⟨.ok [7, 0, 0, 0, 0, 0, 0, 0, 4], [(5, 9)], true⟩ : StepInput Nat)).1
        ++ runConnection (fun (_ : Nat) _ => true) [] :=
  unknown_tenant_reply (fun _ _ => true) _ [] [7, 0, 0, 0, 0, 0, 0, 0, 4]
    ⟨7, [4]⟩ rfl (by decide) (by decide) rfl

/-- C3: for every frame whose envelope fails to decode, the runner terminates
the connection: the trace ends at the decode failure, no further frames are
read, and no reply of any kind is written. -/
theorem decode_failure_terminates {H : Type} (d : DispatchFn H) (inp : StepInput H)
    (rest : List (StepInput H)) (bytes : List Nat)
    (hf : inp.frame = .ok bytes)
    (hdec : decodeEnvelope bytes = none) :
    runConnection d (inp :: rest) = [.decodeFailed] ∧
    writesOf (runConnection d (inp :: rest)) = [] ∧
    (runConnection d (inp :: rest)).filter isDispatch = [] := by
  have hstep : processFrame d inp = ([.decodeFailed], .terminate) := by
    simp [processFrame, hf, hdec]
  have hrun : runConnection d (inp :: rest) = [.decodeFailed] := by
    show (match (processFrame d inp).2 with
      | .next => (processFrame d inp).1 ++ runConnection d rest
      | .terminate => (processFrame d inp).1) = [.decodeFailed]
    rw [hstep]
  exact ⟨hrun, by rw [hrun]; rfl, by rw [hrun]; rfl⟩

theorem decode_failure_terminates_witness :
    runConnection (fun (_ : Nat) _ => true)
        (⟨.ok [1, 2, 3], [(5, 9)], true⟩
          :: [⟨.ok [5, 0, 0, 0, 0, 0, 0, 0], [(5, 9)], true⟩])
      = [.decodeFailed] ∧
    writesOf (runConnection (fun (_ : Nat) _ => true)
        (⟨.ok [1, 2, 3], [(5, 9)], true⟩
          :: [⟨.ok [5, 0, 0, 0, 0, 0, 0, 0], [(5, 9)], true⟩])) = [] ∧
    (runConnection (fun (_ : Nat) _ => true)
        (⟨.ok [1, 2, 3], [(5, 9)], true⟩
          :: [⟨.ok [5, 0, 0, 0, 0, 0, 0, 0], [(5, 9)], true⟩])).filter isDispatch = [] :=
  decode_failure_terminates (fun _ _ => true) _ _ [1, 2, 3] rfl (by decide)

/-- C4: for every frame whose dispatch returns the error outcome, the runner
terminates the connection: the trace shows exactly one dispatch invocation
(no retry) followed by the dispatch-error record, and no further frame of
the connection is decoded or dispatched. -/
theorem dispatch_error_terminates {H : Type} (d : DispatchFn H) (inp : StepInput H)
    (rest : List (StepInput H)) (bytes : List Nat) (m : DvfMessage) (h : H)
    (hf : inp.frame = .ok bytes)
    (hdec : decodeEnvelope bytes = some m)
    (hlk : lookup inp.table m.validator_id = some h)
    (herr : d h m.message = false) :
    runConnection d (inp :: rest)
      = [.dispatched m.validator_id h m.message, .dispatchError m.validator_id] := by
  have hstep : processFrame d inp
      = ([.dispatched m.validator_id h m.message, .dispatchError m.validator_id],
          .terminate) := by
    simp [processFrame, hf, hdec, hlk, herr]
  show (match (processFrame d inp).2 with
    | .next => (processFrame d inp).1 ++ runConnection d rest
    | .terminate => (processFrame d inp).1)
    = [.dispatched m.validator_id h m.message, .dispatchError m.validator_id]
  rw [hstep]

theorem dispatch_error_terminates_witness :
    runConnection (fun (_ : Nat) _ => false)
        (⟨.ok [5, 0, 0, 0, 0, 0, 0, 0, 1], [(5, 9)], true⟩
          :: [⟨.ok [5, 0, 0, 0, 0, 0, 0, 0, 2], [(5, 9)], true⟩])
      = [.dispatched 5 9 [1], .dispatchError 5] :=
  dispatch_error_terminates (fun _ _ => false) _ _ [5, 0, 0, 0, 0, 0, 0, 0, 1]
    ⟨5, [1]⟩ 9 rfl (by decide) (by decide) rfl

end Receiver

namespace Receiver

/-- Is this event a write to the connection's writer? -/
def isWrite {H : Type} : Event H → Bool
  | .sentFrame _ => true
  | _ => false

/-- C5: if binding the listen address fails, the failure is fatal (the
`.expect` panic terminates the process): no accept loop is entered and no
connection is ever served. -/
theorem bind_failure_fatal {σ : Type} (accepts : List (Except Unit σ)) :
    run false accepts = none := rfl

/-- C6: after a successful bind, an accept failure never terminates the
listener: an accept error anywhere in the stream is skipped, and the loop
goes on to serve every connection accepted before and after it. -/
theorem accept_failure_skipped {σ : Type} (xs ys : List (Except Unit σ)) :
    run true (xs ++ .error () :: ys) = some (acceptLoop xs ++ acceptLoop ys) := by
  simp only [run, if_pos]
  induction xs with
  | nil => rfl
  | cons x rest ih =>
    cases x with
    | error e => simpa [acceptLoop] using ih
    | ok s => simpa [acceptLoop] using ih

theorem runConnection_cons {H : Type} (d : DispatchFn H) (inp : StepInput H)
    (rest : List (StepInput H)) :
    runConnection d (inp :: rest) =
      match (processFrame d inp).2 with
      | .next => (processFrame d inp).1 ++ runConnection d rest
      | .terminate => (processFrame d inp).1 := rfl

theorem processedPrefix_cons {H : Type} (d : DispatchFn H) (inp : StepInput H)
    (rest : List (StepInput H)) :
    processedPrefix d (inp :: rest) =
      match (processFrame d inp).2 with
      | .next => inp :: processedPrefix d rest
      | .terminate => [inp] := rfl

/-- C7: frame processing within one connection is strictly sequential and
FIFO: the trace's dispatch invocations are exactly the per-frame dispatches
of the consumed frames, concatenated in arrival order, and a frame is only
consumed after every earlier frame's outcome was `next`. -/
theorem fifo_dispatch_order {H : Type} (d : DispatchFn H)
    (inps : List (StepInput H)) :
    dispatchSeq (runConnection d inps)
      = ((processedPrefix d inps).map
          (fun inp => dispatchSeq (processFrame d inp).1)).flatten := by
  induction inps with
  | nil => rfl
  | cons inp rest ih =>
    rw [runConnection_cons, processedPrefix_cons]
    cases hoc : (processFrame d inp).2 with
    | next => simp [dispatchSeq_append, ih]
    | terminate => simp

/-- C9: a failure of the "No handler found" reply write is ignored: the
loop outcome and all non-write events of the step are the same as when the
write succeeds, and the runner continues with exactly the same behaviour on
the rest of the stream as if the reply had succeeded. -/
theorem reply_write_error_ignored {H : Type} (d : DispatchFn H)
    (f : Except Unit (List Nat)) (t : Table H) (rest : List (StepInput H)) :
    (processFrame d ⟨f, t, false⟩).2 = (processFrame d ⟨f, t, true⟩).2 ∧
    (processFrame d ⟨f, t, false⟩).1
      = (processFrame d ⟨f, t, true⟩).1.filter (fun e => !isWrite e) ∧
    runConnection d (⟨f, t, false⟩ :: rest)
      = (processFrame d ⟨f, t, false⟩).1
        ++ (runConnection d (⟨f, t, true⟩ :: rest)).drop
            (processFrame d ⟨f, t, true⟩).1.length := by
  refine ⟨?_, ?_, ?_⟩ <;>
  · cases f with
    | error e => simp [processFrame, runConnection, isWrite]
    | ok bytes =>
      cases hdec : decodeEnvelope bytes with
      | none => simp [processFrame, hdec, runConnection, isWrite]
      | some m =>
        cases hlk : lookup t m.validator_id with
        | none => simp [processFrame, hdec, hlk, runConnection, isWrite]
        | some h =>
          by_cases hd : d h m.message = true <;>
            simp [processFrame, hdec, hlk, hd, runConnection, isWrite]

/-- C10: the handler is looked up freshly for every frame: if the tenant's
entry is removed from the table between frame N and frame N+1, frame N+1
takes the unknown-tenant path (reply sent, connection stays open) instead of
reusing the handler that served frame N. -/
theorem fresh_lookup_each_frame {H : Type} (d : DispatchFn H)
    (inp1 inp2 : StepInput H) (rest : List (StepInput H))
    (b1 b2 : List Nat) (m1 m2 : DvfMessage) (h : H)
    (hf1 : inp1.frame = .ok b1) (hd1 : decodeEnvelope b1 = some m1)
    (hl1 : lookup inp1.table m1.validator_id = some h)
    (hok : d h m1.message = true)
    (hf2 : inp2.frame = .ok b2) (hd2 : decodeEnvelope b2 = some m2)
    (hsame : m2.validator_id = m1.validator_id)
    (htab : inp2.table = remove inp1.table m1.validator_id)
    (hr : inp2.replyOk = true) :
    runConnection d (inp1 :: inp2 :: rest)
      = .dispatched m1.validator_id h m1.message
        :: .sentFrame noHandlerFound
        :: .noHandlerLogged m2.validator_id
        :: runConnection d rest := by
  have hl2 : lookup inp2.table m2.validator_id = none := by
    rw [htab, hsame]
    exact lookup_remove_self _ _
  have hstep1 : processFrame d inp1
      = ([.dispatched m1.validator_id h m1.message], .next) := by
    simp [processFrame, hf1, hd1, hl1, hok]
  have hstep2 : processFrame d inp2
      = ([.sentFrame noHandlerFound, .noHandlerLogged m2.validator_id], .next) := by
    simp [processFrame, hf2, hd2, hl2, hr]
  rw [runConnection_cons, hstep1, runConnection_cons, hstep2]
  rfl

theorem fresh_lookup_each_frame_witness :
    runConnection (fun (_ : Nat) _ => true)
        (⟨.ok [5, 0, 0, 0, 0, 0, 0, 0, 1], [(5, 9)], true⟩
          :: ⟨.ok [5, 0, 0, 0, 0, 0, 0, 0, 2], remove [(5, 9)] 5, true⟩ :: [])
      = .dispatched 5 9 [1]
        :: .sentFrame noHandlerFound
        :: .noHandlerLogged 5
        :: runConnection (fun (_ : Nat) _ => true) [] :=
  fresh_lookup_each_frame (fun _ _ => true) _ _ []
    [5, 0, 0, 0, 0, 0, 0, 0, 1] [5, 0, 0, 0, 0, 0, 0, 0, 2]
    ⟨5, [1]⟩ ⟨5, [2]⟩ 9 rfl (by decide) (by decide) rfl rfl (by decide) rfl rfl rfl

end Receiver
